import Mathlib

/-!
Verification of the parallel-stream orchestration core of logsynth
(`src/logsynth/core/parallel.py` and the multi-template branch of
`src/logsynth/cli.py`).

The embedding is a sequential shallow model of the threaded code: the
run loop of each stream is executed at its start point and its result becomes
observable at its join point, which is sound because the Python code only
reads `emitted`/`error` after `join()`.  The pacing clock is abstracted:
by-count runs attempt exactly `count` cycles, by-duration runs attempt the
number of cycles the (abstracted) clock permits, supplied as an oracle
`clock : Nat → Nat` indexed by stream position.  Python floats are modelled
as rationals.  An execution trace (`List Event`) records, in program order,
generator creation, stream starts (with the per-stream rate/count they were
started with), joins, and the error check of the orchestrator.
-/

namespace LogSynth

/-- Errors are modelled by their message strings. -/
abbrev Err := String

/-- Python truthiness of an `str | None` value: `None` and `""` are falsy. -/
def pyTruthyStr : Option String → Bool
  | none => false
  | some s => s != ""

/-- Python truthiness of an `int | None` value: `None` and `0` are falsy. -/
def pyTruthyNat : Option Nat → Bool
  | none => false
  | some n => n != 0

/-- The slice of a loaded template the orchestration core reads: its name
(`utils/schema.py` `Template.name`). -/
structure Template where
  name : String
deriving DecidableEq, Repr

/-- The slice of the `LogGenerator` of `core/generator.py` the orchestration core
uses: the loaded template, and the behaviour of `generate()` per cycle index
(`none` = the call returns a line, `some e` = the call raises `e`).  The
shared sink `write` is modelled as never raising on its own; a write
failure can equally be folded into `genBehavior`, since the run loop treats
generate and write failures identically. -/
structure LogGenerator where
  template : Template
  genBehavior : Nat → Option Err

/-- Run `remaining` generate→write cycles starting at cycle index `done`,
stopping at the first raising cycle (which is not counted). -/
def runCycles (behavior : Nat → Option Err) : Nat → Nat → Except Err Nat
  | done, 0 => .ok done
  | done, remaining + 1 =>
    match behavior done with
    | some e => .error e
    | none => runCycles behavior (done + 1) remaining

/-- Modelled from the spec: `run_with_count` of `core/rate_control.py`, which
is not under `src/`.  The by-count policy runs exactly `count` generate→write
cycles; if generate or write raises, the loop stops immediately, does not
count that cycle, and propagates the failure to the caller.  Pacing
(deadline waits) has no effect on the emitted count and is abstracted away;
the `rate` argument is kept for signature fidelity. -/
def run_with_count (rate : ℚ) (count : Nat) (behavior : Nat → Option Err) :
    Except Err Nat :=
  let _ := rate
  runCycles behavior 0 count

/-- Modelled from the spec: `run_with_duration` of `core/rate_control.py`,
which is not under `src/`.  The by-duration policy runs cycles until the
duration bound is reached; how many cycles the clock permits is timing
dependent and is abstracted as the oracle argument `ticks`.  A raising cycle
stops the loop immediately and propagates, exactly as in the by-count
policy. -/
def run_with_duration (rate : ℚ) (ticks : Nat) (behavior : Nat → Option Err) :
    Except Err Nat :=
  let _ := rate
  runCycles behavior 0 ticks

/-- `StreamRunner` of `core/parallel.py`: the generator, rate and name of one
stream and its post-join observable state (`emitted`, `_error`). -/
structure StreamRunner where
  generator : LogGenerator
  rate : ℚ
  name : String
  emitted : Nat
  error : Option Err

/-- `StreamRunner.__init__`: `self.name = name or generator.template.name`
(a `None` or empty explicit name falls back to the template name);
`emitted` starts at 0 and `_error` at `None`. -/
def StreamRunner.init (generator : LogGenerator) (rate : ℚ)
    (name : Option String) : StreamRunner :=
  { generator := generator
    rate := rate
    name := match name with
            | some s => if s = "" then generator.template.name else s
            | none => generator.template.name
    emitted := 0
    error := none }

/-- `StreamRunner._run_count`: `self.emitted = run_with_count(...)` inside a
`try`, with `except Exception as e: self._error = e`.  When the run loop
raises, the assignment to `emitted` never executes, so `emitted` keeps its
prior value. -/
def StreamRunner.runCount (r : StreamRunner) (count : Nat) : StreamRunner :=
  match run_with_count r.rate count r.generator.genBehavior with
  | .ok n => { r with emitted := n }
  | .error e => { r with error := some e }

/-- `StreamRunner._run_duration`: same shape as `_run_count`, with the
cycles permitted by the duration clock abstracted as `ticks`. -/
def StreamRunner.runDuration (r : StreamRunner) (ticks : Nat) : StreamRunner :=
  match run_with_duration r.rate ticks r.generator.genBehavior with
  | .ok n => { r with emitted := n }
  | .error e => { r with error := some e }

/-- Insertion into a Python `dict` built by a comprehension: an existing key
has its value replaced in place, a new key is appended. -/
def dictInsert (d : List (String × Nat)) (k : String) (v : Nat) :
    List (String × Nat) :=
  if d.any (fun p => p.1 = k) then
    d.map (fun p => if p.1 = k then (k, v) else p)
  else d ++ [(k, v)]

/-- The Python dict comprehension `{runner.name: runner.emitted for runner in
runners}`: left-to-right insertion, later entries overwriting earlier ones
with the same key. -/
def dictOf (ps : List (String × Nat)) : List (String × Nat) :=
  ps.foldl (fun d p => dictInsert d p.1 p.2) []

/-- Dictionary lookup on the assoc-list model. -/
def dictGet (d : List (String × Nat)) (k : String) : Option Nat :=
  (d.find? (fun p => p.1 = k)).map Prod.snd

/-- Observable steps of `run_parallel_streams`, in program order. -/
inductive Event where
  | createGen (source : String)
  | startDuration (idx : Nat) (rate : ℚ)
  | startCount (idx : Nat) (perCount : Nat) (rate : ℚ)
  | join (idx : Nat)
  | errorCheck
deriving DecidableEq, Repr

/-- An event that starts a stream thread. -/
def Event.isStart : Event → Bool
  | .startDuration _ _ => true
  | .startCount _ _ _ => true
  | _ => false

/-- The runner list built by the creation loop of `run_parallel_streams`: one
`StreamRunner(generator, sink, per_stream_rate)` per source, constructed
without an explicit name.  `cg` stands for
`create_generator(source, format_override, seed)`, whose template loading is
external to this core. -/
def mkRunners (cg : String → LogGenerator) (sources : List String) (rate : ℚ) :
    List StreamRunner :=
  sources.map fun s =>
    StreamRunner.init (cg s) (rate / (sources.length : ℚ)) none

/-- The runners after the count-mode fan-out/join: each runs
`per_stream_count = count // len(sources)` cycles. -/
def countModeRunners (cg : String → LogGenerator) (sources : List String)
    (rate : ℚ) (count : Nat) : List StreamRunner :=
  (mkRunners cg sources rate).map fun r => r.runCount (count / sources.length)

/-- The runners after the duration-mode fan-out/join; the number of cycles
the clock of each stream permits is given by `clock` at the position of the
stream. -/
def durationModeRunners (cg : String → LogGenerator) (clock : Nat → Nat)
    (sources : List String) (rate : ℚ) : List StreamRunner :=
  List.zipWith (fun r t => r.runDuration t) (mkRunners cg sources rate)
    ((List.range sources.length).map clock)

/-- The failed streams, in runner order, with their recorded errors
(`[(r.name, r.error) for r in runners if r.error]`). -/
def aggregateError (runners : List StreamRunner) : List (String × Err) :=
  runners.filterMap fun r => r.error.map fun e => (r.name, e)

/-- The aggregate `RuntimeError` message:
`"Stream errors: " + "; ".join(f"{name}: {err}" ...)`. -/
def aggregateMsg (errors : List (String × Err)) : String :=
  "Stream errors: " ++
    String.intercalate "; " (errors.map fun p => p.1 ++ ": " ++ p.2)

/-- The tail of `run_parallel_streams` after join-all: raise the aggregate
error if any runner recorded one, otherwise return the name→emitted dict. -/
def finishStreams (runners : List StreamRunner) :
    Except Err (List (String × Nat)) :=
  if (aggregateError runners).isEmpty then
    .ok (dictOf (runners.map fun r => (r.name, r.emitted)))
  else
    .error (aggregateMsg (aggregateError runners))

/-- `run_parallel_streams` of `core/parallel.py`.  Returns the Python
result (`dict` on success, the message of the raised exception on failure)
paired with the event trace.  `cg` abstracts `create_generator` with the
`format_override`/`seed` of the call fixed; `clock` abstracts the per-stream
duration clock (unused in count mode). -/
def run_parallel_streams (cg : String → LogGenerator) (clock : Nat → Nat)
    (sources : List String) (rate : ℚ) (duration : Option String)
    (count : Option Nat) :
    Except Err (List (String × Nat)) × List Event :=
  if sources.isEmpty then
    (.error "No template sources provided", [])
  else
    let n := sources.length
    let per_stream_rate := rate / (n : ℚ)
    let createEvents := sources.map Event.createGen
    if pyTruthyStr duration then
      let started := durationModeRunners cg clock sources rate
      (finishStreams started,
        createEvents
          ++ (List.range n).map (fun i => Event.startDuration i per_stream_rate)
          ++ (List.range n).map Event.join
          ++ [Event.errorCheck])
    else if pyTruthyNat count then
      let per_stream_count := (count.getD 0) / n
      let started := countModeRunners cg sources rate (count.getD 0)
      (finishStreams started,
        createEvents
          ++ (List.range n).map
              (fun i => Event.startCount i per_stream_count per_stream_rate)
          ++ (List.range n).map Event.join
          ++ [Event.errorCheck])
    else
      (.error "Either duration or count must be specified", createEvents)

/-- `count or (1000 if not duration else None)` in the `cli.py` call to
`run_parallel_streams`: a falsy `--count` defaults to 1000 when no duration
is given, and to `None` when a duration is given. -/
def cliCountDefault (count : Option Nat) (duration : Option String) :
    Option Nat :=
  if pyTruthyNat count then count
  else if pyTruthyStr duration then none
  else some 1000

/-- The multi-template branch of `cli.run` (`len(sources) > 1`): a truthy
`--burst` is rejected with an error and `typer.Exit(1)` before
`run_parallel_streams` is called, so no generator is created and no stream
starts. -/
def cliRunMulti (cg : String → LogGenerator) (clock : Nat → Nat)
    (sources : List String) (rate : ℚ) (duration : Option String)
    (count : Option Nat) (burst : Option String) :
    Except Err (List (String × Nat)) × List Event :=
  if pyTruthyStr burst then
    (.error "--burst not supported with parallel streams", [])
  else
    run_parallel_streams cg clock sources rate duration
      (cliCountDefault count duration)

/-- A generator whose `generate` always succeeds, named `nm`. -/
def genOK (nm : String) : LogGenerator :=
  { template := { name := nm }, genBehavior := fun _ => none }

/-- A generator named `nm` whose `generate` raises `e` on cycle index `k`
(the `k+1`-st cycle). -/
def genFailAt (nm : String) (k : Nat) (e : Err) : LogGenerator :=
  { template := { name := nm }
    genBehavior := fun i => if i = k then some e else none }

/-- Source map used in concrete scenarios: source "a" loads an always-ok
template named "A"; any other source loads a template named "B" whose
generate raises "boom" on its first cycle. -/
def cgMixed : String → LogGenerator :=
  fun s => if s = "a" then genOK "A" else genFailAt "B" 0 "boom"

/-- Source map whose template names equal the source strings. -/
def cgNamed : String → LogGenerator := fun s => genOK s

/-- Source map sending every source to an always-ok template named "T". -/
def cgT : String → LogGenerator := fun _ => genOK "T"

instance : DecidableEq (Except Err (List (String × Nat)))
  | .ok x, .ok y =>
    if h : x = y then isTrue (congrArg Except.ok h)
    else isFalse (fun hh => h (Except.ok.inj hh))
  | .error x, .error y =>
    if h : x = y then isTrue (congrArg Except.error h)
    else isFalse (fun hh => h (Except.error.inj hh))
  | .ok _, .error _ => isFalse (fun hh => Except.noConfusion hh)
  | .error _, .ok _ => isFalse (fun hh => Except.noConfusion hh)

theorem runCycles_succ_none {b : Nat → Option Err} {i : Nat} (n : Nat)
    (h : b i = none) : runCycles b i (n + 1) = runCycles b (i + 1) n := by
  conv_lhs => unfold runCycles
  rw [h]

theorem runCycles_succ_some {b : Nat → Option Err} {i : Nat} {e : Err}
    (n : Nat) (h : b i = some e) : runCycles b i (n + 1) = .error e := by
  conv_lhs => unfold runCycles
  rw [h]

theorem runCycles_ok {b : Nat → Option Err} (hb : ∀ j, b j = none) :
    ∀ (m i : Nat), runCycles b i m = .ok (i + m) := by
  intro m
  induction m with
  | zero => intro i; rfl
  | succ n ih =>
    intro i
    rw [runCycles_succ_none n (hb i), ih (i + 1)]
    congr 1
    omega

theorem runCycles_error {b : Nat → Option Err} {e : Err} :
    ∀ (d i m : Nat), (∀ j, j < d → b (i + j) = none) → b (i + d) = some e →
      d < m → runCycles b i m = .error e := by
  intro d
  induction d with
  | zero =>
    intro i m _ hfail hm
    obtain ⟨m', rfl⟩ : ∃ m', m = m' + 1 := ⟨m - 1, by omega⟩
    exact runCycles_succ_some m' (by simpa using hfail)
  | succ d ih =>
    intro i m hok hfail hm
    obtain ⟨m', rfl⟩ : ∃ m', m = m' + 1 := ⟨m - 1, by omega⟩
    rw [runCycles_succ_none m' (by simpa using hok 0 (by omega))]
    refine ih (i + 1) m' (fun j hj => ?_) ?_ (by omega)
    · have := hok (j + 1) (by omega)
      simpa [Nat.add_assoc, Nat.add_comm 1 j] using this
    · simpa [Nat.add_assoc, Nat.add_comm 1 d] using hfail

theorem mem_dictInsert {d : List (String × Nat)} {k : String} {v : Nat}
    {q : String × Nat} (hq : q ∈ dictInsert d k v) : q ∈ d ∨ q = (k, v) := by
  unfold dictInsert at hq
  split at hq
  · rcases List.mem_map.mp hq with ⟨p, hp, hpe⟩
    by_cases hk : p.1 = k
    · right
      rw [← hpe]
      simp [hk]
    · left
      rw [← hpe]
      simpa [hk] using hp
  · rcases List.mem_append.mp hq with h | h
    · exact .inl h
    · exact .inr (by simpa using h)

theorem keys_dictInsert_pos {d : List (String × Nat)} {k : String} (v : Nat)
    (h : d.any (fun p => p.1 = k) = true) :
    (dictInsert d k v).map Prod.fst = d.map Prod.fst := by
  unfold dictInsert
  rw [if_pos h, List.map_map]
  refine List.map_congr_left (fun p _ => ?_)
  by_cases hk : p.1 = k
  · simp [hk]
  · simp [hk]

theorem keys_dictInsert_neg {d : List (String × Nat)} {k : String} (v : Nat)
    (h : ¬ d.any (fun p => p.1 = k) = true) :
    (dictInsert d k v).map Prod.fst = d.map Prod.fst ++ [k] := by
  unfold dictInsert
  rw [if_neg h]
  simp

theorem nodup_keys_dictInsert {d : List (String × Nat)} {k : String} (v : Nat)
    (h : (d.map Prod.fst).Nodup) :
    ((dictInsert d k v).map Prod.fst).Nodup := by
  by_cases hc : d.any (fun p => p.1 = k) = true
  · rw [keys_dictInsert_pos v hc]
    exact h
  · rw [keys_dictInsert_neg v hc]
    have hk : k ∉ d.map Prod.fst := by
      intro hmem
      rcases List.mem_map.mp hmem with ⟨p, hp, hpe⟩
      exact hc (List.any_eq_true.mpr ⟨p, hp, by simp [hpe]⟩)
    simp [List.nodup_append, h, hk]

theorem mem_foldl_dictInsert :
    ∀ (ps d : List (String × Nat)) (q : String × Nat),
      q ∈ ps.foldl (fun d p => dictInsert d p.1 p.2) d → q ∈ d ∨ q ∈ ps := by
  intro ps
  induction ps with
  | nil => intro d q h; exact .inl h
  | cons p ps ih =>
    intro d q h
    simp only [List.foldl_cons] at h
    rcases ih _ q h with h' | h'
    · rcases mem_dictInsert h' with h'' | h''
      · exact .inl h''
      · right
        simp [h'']
    · right
      simp [h']

theorem nodup_keys_foldl_dictInsert :
    ∀ (ps d : List (String × Nat)), (d.map Prod.fst).Nodup →
      (((ps.foldl (fun d p => dictInsert d p.1 p.2) d)).map Prod.fst).Nodup := by
  intro ps
  induction ps with
  | nil => intro d h; exact h
  | cons p ps ih =>
    intro d h
    simp only [List.foldl_cons]
    exact ih _ (nodup_keys_dictInsert p.2 h)

theorem mem_dictOf {ps : List (String × Nat)} {q : String × Nat}
    (h : q ∈ dictOf ps) : q ∈ ps :=
  (mem_foldl_dictInsert ps [] q h).resolve_left (by simp)

theorem nodup_keys_dictOf (ps : List (String × Nat)) :
    ((dictOf ps).map Prod.fst).Nodup :=
  nodup_keys_foldl_dictInsert ps [] (by simp)

theorem isEmpty_false_of_ne_nil {sources : List String} (h : sources ≠ []) :
    sources.isEmpty = false := by
  simpa [List.isEmpty_iff] using h

theorem run_parallel_streams_duration_branch (cg : String → LogGenerator)
    (clock : Nat → Nat) (sources : List String) (rate : ℚ)
    (duration : Option String) (count : Option Nat) (h1 : sources ≠ [])
    (hd : pyTruthyStr duration = true) :
    run_parallel_streams cg clock sources rate duration count
      = (finishStreams (durationModeRunners cg clock sources rate),
         sources.map Event.createGen
           ++ (List.range sources.length).map
               (fun i => Event.startDuration i (rate / (sources.length : ℚ)))
           ++ (List.range sources.length).map Event.join
           ++ [Event.errorCheck]) := by
  unfold run_parallel_streams
  rw [isEmpty_false_of_ne_nil h1, hd]
  simp

theorem run_parallel_streams_count_branch (cg : String → LogGenerator)
    (clock : Nat → Nat) (sources : List String) (rate : ℚ)
    (duration : Option String) (count : Option Nat) (h1 : sources ≠ [])
    (hd : pyTruthyStr duration = false) (hc : pyTruthyNat count = true) :
    run_parallel_streams cg clock sources rate duration count
      = (finishStreams (countModeRunners cg sources rate (count.getD 0)),
         sources.map Event.createGen
           ++ (List.range sources.length).map
               (fun i => Event.startCount i ((count.getD 0) / sources.length)
                 (rate / (sources.length : ℚ)))
           ++ (List.range sources.length).map Event.join
           ++ [Event.errorCheck]) := by
  unfold run_parallel_streams
  rw [isEmpty_false_of_ne_nil h1, hd, hc]
  simp

theorem run_parallel_streams_no_stop (cg : String → LogGenerator)
    (clock : Nat → Nat) (sources : List String) (rate : ℚ)
    (duration : Option String) (count : Option Nat) (h1 : sources ≠ [])
    (hd : pyTruthyStr duration = false) (hc : pyTruthyNat count = false) :
    run_parallel_streams cg clock sources rate duration count
      = (.error "Either duration or count must be specified",
         sources.map Event.createGen) := by
  unfold run_parallel_streams
  rw [isEmpty_false_of_ne_nil h1, hd, hc]
  simp

theorem run_parallel_streams_duration_result (cg : String → LogGenerator)
    (clock : Nat → Nat) (sources : List String) (rate : ℚ)
    (duration : Option String) (count : Option Nat) (h1 : sources ≠ [])
    (hd : pyTruthyStr duration = true) :
    (run_parallel_streams cg clock sources rate duration count).1
      = finishStreams (durationModeRunners cg clock sources rate) := by
  rw [run_parallel_streams_duration_branch cg clock sources rate duration
    count h1 hd]

theorem run_parallel_streams_count_result (cg : String → LogGenerator)
    (clock : Nat → Nat) (sources : List String) (rate : ℚ)
    (duration : Option String) (count : Option Nat) (h1 : sources ≠ [])
    (hd : pyTruthyStr duration = false) (hc : pyTruthyNat count = true) :
    (run_parallel_streams cg clock sources rate duration count).1
      = finishStreams (countModeRunners cg sources rate (count.getD 0)) := by
  rw [run_parallel_streams_count_branch cg clock sources rate duration count
    h1 hd hc]

/-- Claim C1: for every `run_parallel_streams` call with a non-empty
`sources` list of length `N`, every stream is started with per-stream rate
`rate / N`, and in count mode with per-stream count `⌊count / N⌋`, so the
total number of requested lines is `N * ⌊count / N⌋` and the remainder
`count % N` is dropped, not redistributed. -/
theorem C1_count_and_rate_split (cg : String → LogGenerator)
    (clock : Nat → Nat) (sources : List String) (rate : ℚ) (c : Nat)
    (h1 : sources ≠ []) (h2 : c ≠ 0) :
    (run_parallel_streams cg clock sources rate none (some c)).2
      = sources.map Event.createGen
        ++ (List.range sources.length).map
            (fun i => Event.startCount i (c / sources.length)
              (rate / (sources.length : ℚ)))
        ++ (List.range sources.length).map Event.join ++ [Event.errorCheck]
    ∧ sources.length * (c / sources.length) + c % sources.length = c := by
  constructor
  · rw [run_parallel_streams_count_branch cg clock sources rate none (some c)
      h1 rfl (by simpa [pyTruthyNat] using h2)]
    rfl
  · exact Nat.div_add_mod c sources.length

/-- Witness for C1: three streams, total rate 30, total count 30: each
stream is started with rate 10 and count 10; `3 * 10 + 0 = 30`. -/
theorem C1_count_and_rate_split_witness :
    ((["a", "b", "c"] : List String) ≠ [] ∧ (30 : Nat) ≠ 0)
    ∧ ((run_parallel_streams cgT (fun _ => 0) ["a", "b", "c"] 30 none
          (some 30)).2
        = [Event.createGen "a", Event.createGen "b", Event.createGen "c",
           Event.startCount 0 10 10, Event.startCount 1 10 10,
           Event.startCount 2 10 10,
           Event.join 0, Event.join 1, Event.join 2, Event.errorCheck]
      ∧ 3 * (30 / 3) + 30 % 3 = 30) := by
  have h := C1_count_and_rate_split cgT (fun _ => 0) ["a", "b", "c"] 30 30
    (by decide) (by decide)
  refine ⟨⟨by decide, by decide⟩, ?_, by decide⟩
  rw [h.1]
  norm_num [List.range_succ]

/-- Claim C2 counterexample: a by-count run of 10 whose generate raises on
the 5th cycle leaves the runner with `emitted = 0`, not `emitted = 4` as the
claim states — the assignment `self.emitted = run_with_count(...)` never
executes when the loop raises. -/
theorem C2_counterexample :
    ((StreamRunner.init (genFailAt "app" 4 "boom") 1 none).runCount 10).error
        = some "boom"
    ∧ ((StreamRunner.init (genFailAt "app" 4 "boom") 1 none).runCount
        10).emitted = 0
    ∧ ¬ ((StreamRunner.init (genFailAt "app" 4 "boom") 1 none).runCount
        10).emitted = 4 :=
  ⟨by decide, by decide, by decide⟩

/-- Claim C2 (amended): when the run loop (by count or by duration) raises
after some cycles have succeeded, the runner records the error in its
terminal-error field without rethrowing, but its observable `emitted`
counter after join keeps its initial value 0 — the partial cycle count is
not captured. -/
theorem C2_error_recorded_but_emitted_zero (gen : LogGenerator) (rate : ℚ)
    (n k : Nat) (e : Err) (hk : k < n) (hfail : gen.genBehavior k = some e)
    (hok : ∀ j, j < k → gen.genBehavior j = none) :
    ((StreamRunner.init gen rate none).runCount n).error = some e
    ∧ ((StreamRunner.init gen rate none).runCount n).emitted = 0
    ∧ ((StreamRunner.init gen rate none).runDuration n).error = some e
    ∧ ((StreamRunner.init gen rate none).runDuration n).emitted = 0 := by
  have hrun : runCycles gen.genBehavior 0 n = .error e :=
    runCycles_error k 0 n (fun j hj => by simpa using hok j hj)
      (by simpa using hfail) hk
  refine ⟨?_, ?_, ?_, ?_⟩ <;>
    simp [StreamRunner.runCount, StreamRunner.runDuration, run_with_count,
      run_with_duration, StreamRunner.init, hrun]

/-- Witness for the amended C2: generate raises "boom" on the 5th cycle
(index 4) of a run of 10; the error is recorded and emitted is 0. -/
theorem C2_error_recorded_but_emitted_zero_witness :
    ((4 : Nat) < 10 ∧ (genFailAt "app" 4 "boom").genBehavior 4 = some "boom"
      ∧ ∀ j, j < 4 → (genFailAt "app" 4 "boom").genBehavior j = none)
    ∧ (((StreamRunner.init (genFailAt "app" 4 "boom") 1 none).runCount
          10).error = some "boom"
      ∧ ((StreamRunner.init (genFailAt "app" 4 "boom") 1 none).runCount
          10).emitted = 0
      ∧ ((StreamRunner.init (genFailAt "app" 4 "boom") 1 none).runDuration
          10).error = some "boom"
      ∧ ((StreamRunner.init (genFailAt "app" 4 "boom") 1 none).runDuration
          10).emitted = 0) :=
  ⟨⟨by decide, by decide, by decide⟩,
   C2_error_recorded_but_emitted_zero (genFailAt "app" 4 "boom") 1 10 4
     "boom" (by decide) (by decide) (by decide)⟩

/-- Claim C7: `run_parallel_streams` with an empty sources list fails with
the zero-sources configuration error; the empty trace shows no generator is
created, no stream started and nothing emitted. -/
theorem C7_empty_sources_rejected (cg : String → LogGenerator)
    (clock : Nat → Nat) (rate : ℚ) (duration : Option String)
    (count : Option Nat) :
    run_parallel_streams cg clock [] rate duration count
      = (.error "No template sources provided", []) := rfl

/-- Claim C9: `duration = None` and `count = 0` raise the
missing-stop-condition configuration error instead of completing with zero
lines: the truthiness test `elif count:` cannot distinguish 0 from an
absent count.  The trace shows generators are created but no stream is
started. -/
theorem C9_zero_count_missing_stop (cg : String → LogGenerator)
    (clock : Nat → Nat) (sources : List String) (rate : ℚ)
    (h1 : sources ≠ []) :
    run_parallel_streams cg clock sources rate none (some 0)
      = (.error "Either duration or count must be specified",
         sources.map Event.createGen) :=
  run_parallel_streams_no_stop cg clock sources rate none (some 0) h1 rfl rfl

/-- Witness for C9: two sources, count 0, no duration. -/
theorem C9_zero_count_missing_stop_witness :
    (["a", "b"] : List String) ≠ []
    ∧ run_parallel_streams cgT (fun _ => 0) ["a", "b"] 5 none (some 0)
        = (.error "Either duration or count must be specified",
           [Event.createGen "a", Event.createGen "b"]) := by
  refine ⟨by decide, ?_⟩
  have h := C9_zero_count_missing_stop cgT (fun _ => 0) ["a", "b"] 5
    (by decide)
  simpa using h

/-- Claim C3 counterexample: two failing runs that differ only in the total
count produce bitwise identical results (`.error "Stream errors: B: boom"`),
while the emitted count of the successful stream differs (5 vs 10): the
per-stream emitted counts are discarded by the failure, not made available
to the caller. -/
theorem C3_counterexample :
    (run_parallel_streams cgMixed (fun _ => 0) ["a", "b"] 2 none
        (some 10)).1
      = (run_parallel_streams cgMixed (fun _ => 0) ["a", "b"] 2 none
          (some 20)).1
    ∧ (countModeRunners cgMixed ["a", "b"] 2 10).map StreamRunner.emitted
        = [5, 0]
    ∧ (countModeRunners cgMixed ["a", "b"] 2 20).map StreamRunner.emitted
        = [10, 0]
    ∧ (run_parallel_streams cgMixed (fun _ => 0) ["a", "b"] 2 none
        (some 10)).1 = .error "Stream errors: B: boom" :=
  ⟨by decide, by decide, by decide, by decide⟩

/-- Claim C3 (amended): when at least one stream records an error, the
orchestrator fails with the aggregate message naming every failed stream
together with its underlying error (every failed runner contributes its
`(name, error)` entry to the aggregate); the per-stream emitted counts,
however, are not made available to the caller — the failure result carries
only the message. -/
theorem C3_aggregate_error_names_all_failed (cg : String → LogGenerator)
    (clock : Nat → Nat) (sources : List String) (rate : ℚ) (c : Nat)
    (h1 : sources ≠ []) (h2 : c ≠ 0)
    (h3 : aggregateError (countModeRunners cg sources rate c) ≠ []) :
    (run_parallel_streams cg clock sources rate none (some c)).1
      = .error
          (aggregateMsg (aggregateError (countModeRunners cg sources rate c)))
    ∧ ∀ r ∈ countModeRunners cg sources rate c, ∀ e, r.error = some e →
        (r.name, e) ∈ aggregateError (countModeRunners cg sources rate c) := by
  constructor
  · rw [run_parallel_streams_count_result cg clock sources rate none (some c)
      h1 rfl (by simpa [pyTruthyNat] using h2)]
    unfold finishStreams
    rw [if_neg (by simpa [List.isEmpty_iff] using h3)]
    rfl
  · intro r hr e he
    unfold aggregateError
    exact List.mem_filterMap.mpr ⟨r, hr, by simp [he]⟩

/-- Witness for the amended C3: source "b" fails with "boom" on its first
cycle while source "a" succeeds; the aggregate error names stream "B". -/
theorem C3_aggregate_error_names_all_failed_witness :
    ((["a", "b"] : List String) ≠ [] ∧ (10 : Nat) ≠ 0
      ∧ aggregateError (countModeRunners cgMixed ["a", "b"] 2 10) ≠ [])
    ∧ ((run_parallel_streams cgMixed (fun _ => 0) ["a", "b"] 2 none
          (some 10)).1
        = .error (aggregateMsg
            (aggregateError (countModeRunners cgMixed ["a", "b"] 2 10)))
      ∧ ∀ r ∈ countModeRunners cgMixed ["a", "b"] 2 10, ∀ e,
          r.error = some e →
          (r.name, e) ∈ aggregateError (countModeRunners cgMixed ["a", "b"] 2 10)) :=
  ⟨⟨by decide, by decide, by decide⟩,
   C3_aggregate_error_names_all_failed cgMixed (fun _ => 0) ["a", "b"] 2 10
     (by decide) (by decide) (by decide)⟩

/-- Claim C4 counterexample: with both a duration and a count supplied,
`run_parallel_streams` does not fail with a configuration error — it runs in
duration mode and succeeds. -/
theorem C4_counterexample :
    (run_parallel_streams cgNamed (fun _ => 3) ["a", "b"] 4 (some "30s")
        (some 10)).1 = .ok [("a", 3), ("b", 3)]
    ∧ ∀ e : Err,
        (run_parallel_streams cgNamed (fun _ => 3) ["a", "b"] 4 (some "30s")
            (some 10)).1 ≠ .error e := by
  refine ⟨by decide, fun e he => ?_⟩
  rw [show (run_parallel_streams cgNamed (fun _ => 3) ["a", "b"] 4
      (some "30s") (some 10)).1 = .ok [("a", 3), ("b", 3)] from by decide]
    at he
  exact Except.noConfusion he

/-- Claim C4 (amended): `run_parallel_streams` raises the
missing-stop-condition configuration error exactly when neither duration
nor count is truthy, before any stream thread is started (the trace holds
only creation events); when both are given there is no configuration
error — duration takes precedence and the run proceeds in duration mode. -/
theorem C4_stop_condition_dispatch (cg : String → LogGenerator)
    (clock : Nat → Nat) (sources : List String) (rate : ℚ)
    (duration : Option String) (count : Option Nat) (h1 : sources ≠ []) :
    (pyTruthyStr duration = false → pyTruthyNat count = false →
      run_parallel_streams cg clock sources rate duration count
        = (.error "Either duration or count must be specified",
           sources.map Event.createGen))
    ∧ (pyTruthyStr duration = true →
      run_parallel_streams cg clock sources rate duration count
        = (finishStreams (durationModeRunners cg clock sources rate),
           sources.map Event.createGen
             ++ (List.range sources.length).map
                 (fun i => Event.startDuration i (rate / (sources.length : ℚ)))
             ++ (List.range sources.length).map Event.join
             ++ [Event.errorCheck])) :=
  ⟨fun hd hc =>
    run_parallel_streams_no_stop cg clock sources rate duration count h1 hd hc,
   fun hd =>
    run_parallel_streams_duration_branch cg clock sources rate duration count
      h1 hd⟩

/-- Witness for the amended C4: both `duration = "30s"` and `count = 10`
given; the duration branch applies. -/
theorem C4_stop_condition_dispatch_witness :
    (["a", "b"] : List String) ≠ []
    ∧ ((pyTruthyStr (some "30s") = false → pyTruthyNat (some 10) = false →
        run_parallel_streams cgNamed (fun _ => 3) ["a", "b"] 4 (some "30s")
            (some 10)
          = (.error "Either duration or count must be specified",
             (["a", "b"] : List String).map Event.createGen))
      ∧ (pyTruthyStr (some "30s") = true →
        run_parallel_streams cgNamed (fun _ => 3) ["a", "b"] 4 (some "30s")
            (some 10)
          = (finishStreams (durationModeRunners cgNamed (fun _ => 3)
               ["a", "b"] 4),
             (["a", "b"] : List String).map Event.createGen
               ++ (List.range (["a", "b"] : List String).length).map
                   (fun i => Event.startDuration i
                     (4 / ((["a", "b"] : List String).length : ℚ)))
               ++ (List.range (["a", "b"] : List String).length).map
                   Event.join
               ++ [Event.errorCheck]))) :=
  ⟨by decide,
   C4_stop_condition_dispatch cgNamed (fun _ => 3) ["a", "b"] 4 (some "30s")
     (some 10) (by decide)⟩

/-- Claim C5: in every valid `run_parallel_streams` execution the trace is
creation events, then all `N` stream starts, then all `N` joins, then the
single error check: every stream is started before any is waited on, every
runner is joined, and the check that can raise the aggregate error comes
only after all joins — one failure never cancels sibling streams early. -/
theorem C5_fanout_join_all_then_check (cg : String → LogGenerator)
    (clock : Nat → Nat) (sources : List String) (rate : ℚ)
    (duration : Option String) (count : Option Nat) (h1 : sources ≠ [])
    (h2 : pyTruthyStr duration = true ∨ pyTruthyNat count = true) :
    ∃ starts : List Event,
      (run_parallel_streams cg clock sources rate duration count).2
        = sources.map Event.createGen ++ starts
          ++ (List.range sources.length).map Event.join ++ [Event.errorCheck]
      ∧ starts.length = sources.length
      ∧ ∀ ev ∈ starts, ev.isStart = true := by
  cases hd : pyTruthyStr duration with
  | true =>
    refine ⟨(List.range sources.length).map
      (fun i => Event.startDuration i (rate / (sources.length : ℚ))),
      ?_, by simp, ?_⟩
    · rw [run_parallel_streams_duration_branch cg clock sources rate duration
        count h1 hd]
    · intro ev hev
      rcases List.mem_map.mp hev with ⟨i, _, rfl⟩
      rfl
  | false =>
    have hc : pyTruthyNat count = true := by
      rcases h2 with h | h
      · rw [hd] at h
        cases h
      · exact h
    refine ⟨(List.range sources.length).map
      (fun i => Event.startCount i ((count.getD 0) / sources.length)
        (rate / (sources.length : ℚ))), ?_, by simp, ?_⟩
    · rw [run_parallel_streams_count_branch cg clock sources rate duration
        count h1 hd hc]
    · intro ev hev
      rcases List.mem_map.mp hev with ⟨i, _, rfl⟩
      rfl

/-- Witness for C5: a two-stream duration run. -/
theorem C5_fanout_join_all_then_check_witness :
    ((["a", "b"] : List String) ≠ []
      ∧ (pyTruthyStr (some "10s") = true ∨ pyTruthyNat none = true))
    ∧ ∃ starts : List Event,
        (run_parallel_streams cgT (fun _ => 2) ["a", "b"] 6 (some "10s")
            none).2
          = (["a", "b"] : List String).map Event.createGen ++ starts
            ++ (List.range (["a", "b"] : List String).length).map Event.join
            ++ [Event.errorCheck]
        ∧ starts.length = (["a", "b"] : List String).length
        ∧ ∀ ev ∈ starts, ev.isStart = true :=
  ⟨⟨by decide, Or.inl (by decide)⟩,
   C5_fanout_join_all_then_check cgT (fun _ => 2) ["a", "b"] 6 (some "10s")
     none (by decide) (Or.inl (by decide))⟩

/-- Claim C6: on success the returned mapping is keyed by stream name with
duplicates deduplicated: when two sources resolve to the same template name,
the entry of the later stream (source order) overwrites that of the earlier
one — here the result is the single entry holding the emitted count of the
second stream. -/
theorem C6_later_duplicate_overwrites (cg : String → LogGenerator)
    (clock : Nat → Nat) (s1 s2 : String) (rate : ℚ) (nm : String)
    (h1 : (cg s1).template.name = nm) (h2 : (cg s2).template.name = nm)
    (hok1 : ∀ i, (cg s1).genBehavior i = none)
    (hok2 : ∀ i, (cg s2).genBehavior i = none) :
    (run_parallel_streams cg clock [s1, s2] rate (some "10s") none).1
      = .ok [(nm, clock 1)] := by
  rw [run_parallel_streams_duration_result cg clock [s1, s2] rate
    (some "10s") none (by simp) rfl]
  have e1 : runCycles (cg s1).genBehavior 0 (clock 0) = .ok (clock 0) := by
    simpa using runCycles_ok hok1 (clock 0) 0
  have e2 : runCycles (cg s2).genBehavior 0 (clock 1) = .ok (clock 1) := by
    simpa using runCycles_ok hok2 (clock 1) 0
  simp [durationModeRunners, mkRunners, List.range_succ,
    StreamRunner.runDuration, run_with_duration, StreamRunner.init, e1, e2,
    finishStreams, aggregateError, dictOf, dictInsert, h1, h2]

/-- Witness for C6: two sources both resolving to template name "T", the
first permitted 5 cycles and the second 6: the result maps "T" to 6. -/
theorem C6_later_duplicate_overwrites_witness :
    ((cgT "a").template.name = "T" ∧ (cgT "b").template.name = "T"
      ∧ (∀ i, (cgT "a").genBehavior i = none)
      ∧ (∀ i, (cgT "b").genBehavior i = none))
    ∧ (run_parallel_streams cgT (fun i => 5 + i) ["a", "b"] 1 (some "10s")
        none).1 = .ok [("T", 6)] := by
  refine ⟨⟨rfl, rfl, fun _ => rfl, fun _ => rfl⟩, ?_⟩
  have h := C6_later_duplicate_overwrites cgT (fun i => 5 + i) "a" "b" 1 "T"
    rfl rfl (fun _ => rfl) (fun _ => rfl)
  simpa using h

/-- Claim C8: in the multi-template branch of `cli.run`, supplying a burst
specification is rejected with an error exit before `run_parallel_streams`
is invoked: the empty trace shows no generator created, no stream started,
nothing emitted. -/
theorem C8_burst_rejected_in_multistream (cg : String → LogGenerator)
    (clock : Nat → Nat) (sources : List String) (rate : ℚ)
    (duration : Option String) (count : Option Nat) (burst : Option String)
    (hs : 1 < sources.length) (hb : pyTruthyStr burst = true) :
    cliRunMulti cg clock sources rate duration count burst
      = (.error "--burst not supported with parallel streams", []) := by
  have _ := hs
  unfold cliRunMulti
  rw [hb]
  simp

/-- Witness for C8: two sources and the burst option "100:5s,10:25s". -/
theorem C8_burst_rejected_in_multistream_witness :
    (1 < (["a", "b"] : List String).length
      ∧ pyTruthyStr (some "100:5s,10:25s") = true)
    ∧ cliRunMulti cgT (fun _ => 0) ["a", "b"] 6 (some "30s") none
        (some "100:5s,10:25s")
      = (.error "--burst not supported with parallel streams", []) :=
  ⟨⟨by decide, by decide⟩,
   C8_burst_rejected_in_multistream cgT (fun _ => 0) ["a", "b"] 6
     (some "30s") none (some "100:5s,10:25s") (by decide) (by decide)⟩

/-- Claim C10: every `StreamRunner` is constructed without an explicit name
and so is named after the template of its generator; on success every key of
the returned mapping is the template name of some source (never the source
string as such), and the keys are pairwise distinct, so sources whose
templates share a name collapse to one key. -/
theorem C10_keys_are_template_names (cg : String → LogGenerator)
    (clock : Nat → Nat) (sources : List String) (rate : ℚ) (c : Nat)
    (h1 : sources ≠ []) (h2 : c ≠ 0)
    (hok : ∀ s ∈ sources, ∀ i, (cg s).genBehavior i = none) :
    (∀ r ∈ mkRunners cg sources rate, r.name = r.generator.template.name)
    ∧ ∃ d, (run_parallel_streams cg clock sources rate none (some c)).1
          = .ok d
        ∧ (∀ p ∈ d, ∃ s ∈ sources, (cg s).template.name = p.1)
        ∧ (d.map Prod.fst).Nodup := by
  constructor
  · intro r hr
    rcases List.mem_map.mp hr with ⟨s, _, rfl⟩
    rfl
  · have hrunners : ∀ r ∈ countModeRunners cg sources rate c,
        r.error = none ∧ ∃ s ∈ sources, r.name = (cg s).template.name := by
      intro r hr
      unfold countModeRunners at hr
      rcases List.mem_map.mp hr with ⟨r0, hr0, rfl⟩
      unfold mkRunners at hr0
      rcases List.mem_map.mp hr0 with ⟨s, hs, rfl⟩
      have hb : runCycles (cg s).genBehavior 0 (c / sources.length)
          = .ok (c / sources.length) := by
        simpa using runCycles_ok (hok s hs) (c / sources.length) 0
      refine ⟨?_, s, hs, ?_⟩ <;>
        simp [StreamRunner.runCount, run_with_count, StreamRunner.init, hb]
    have hagg : aggregateError (countModeRunners cg sources rate c) = [] := by
      unfold aggregateError
      rw [List.filterMap_eq_nil_iff]
      intro r hr
      rw [(hrunners r hr).1]
      rfl
    refine ⟨dictOf ((countModeRunners cg sources rate c).map
      fun r => (r.name, r.emitted)), ?_, ?_, nodup_keys_dictOf _⟩
    · rw [run_parallel_streams_count_result cg clock sources rate none
        (some c) h1 rfl (by simpa [pyTruthyNat] using h2)]
      unfold finishStreams
      rw [show ((some c).getD 0) = c from rfl, hagg]
      rfl
    · intro p hp
      rcases List.mem_map.mp (mem_dictOf hp) with ⟨r, hr, rfl⟩
      rcases (hrunners r hr).2 with ⟨s, hs, hname⟩
      exact ⟨s, hs, hname.symm⟩

/-- Witness for C10: two distinct sources both loading a template named
"T". -/
theorem C10_keys_are_template_names_witness :
    ((["a", "b"] : List String) ≠ [] ∧ (10 : Nat) ≠ 0
      ∧ ∀ s ∈ (["a", "b"] : List String), ∀ i, (cgT s).genBehavior i = none)
    ∧ ((∀ r ∈ mkRunners cgT ["a", "b"] 1,
          r.name = r.generator.template.name)
      ∧ ∃ d, (run_parallel_streams cgT (fun _ => 0) ["a", "b"] 1 none
            (some 10)).1 = .ok d
          ∧ (∀ p ∈ d, ∃ s ∈ (["a", "b"] : List String),
              (cgT s).template.name = p.1)
          ∧ (d.map Prod.fst).Nodup) :=
  ⟨⟨by decide, by decide, fun s _ i => rfl⟩,
   C10_keys_are_template_names cgT (fun _ => 0) ["a", "b"] 1 10 (by decide)
     (by decide) (fun s _ i => rfl)⟩

end LogSynth
